import Mathlib

/-!
Verification development for the asteroid impact calculation service
(src/project/src/services/impactCalculations.ts).

The service is a pure pipeline over real-valued quantities, except for two
places that read a uniform random value in [0,1): the fallback branch of the
ocean classification and the population-density variation.  We model the
random source as a stream `rs : ℕ → ℝ` together with an explicit cursor that
each consuming function advances; the number of values consumed by a call is
the difference of cursors.  JavaScript floating point arithmetic is modelled
by the real numbers.
-/

namespace ImpactCalc

noncomputable section

/-- Constant from the source: asteroid density in kg per cubic meter. -/
def ASTEROID_DENSITY : ℝ := 2000

/-- Constant from the source, named TNT_ENERGY there and commented as
Joules per megaton.  Its numeric value is 4.184e12. -/
def TNT_ENERGY : ℝ := 4.184e12

/-- Constant from the source: fraction of Earth surface that is ocean. -/
def EARTH_OCEAN_COVERAGE : ℝ := 0.71

/-- Input record, mirroring the AsteroidData interface of the source. -/
structure AsteroidData where
  diameter : ℝ
  velocity : ℝ
  angle : ℝ
  impactLat : ℝ
  impactLon : ℝ

/-- Output record, mirroring the ImpactResults interface of the source.
The optional tsunamiHeight field becomes an Option. -/
structure ImpactResults where
  mass : ℝ
  energy : ℝ
  craterDiameter : ℝ
  craterDepth : ℝ
  shockwaveRadius : ℝ
  seismicMagnitude : ℝ
  thermalRadius : ℝ
  isOceanImpact : Bool
  tsunamiHeight : Option ℝ
  affectedPopulation : ℤ

/-- calculateMass from the source: volume of a sphere of the given diameter
times the fixed density. -/
def calculateMass (diameter : ℝ) : ℝ :=
  let radius := diameter / 2
  let volume := (4 / 3) * Real.pi * radius ^ 3
  volume * ASTEROID_DENSITY

/-- calculateEnergy from the source: kinetic energy in joules divided by
the TNT_ENERGY constant. -/
def calculateEnergy (mass velocity : ℝ) : ℝ :=
  let velocityMs := velocity * 1000
  let energyJoules := 0.5 * mass * velocityMs ^ 2
  energyJoules / TNT_ENERGY

/-- calculateCraterDiameter from the source.  The velocity argument is
declared but unused there (prefixed with an underscore in the source). -/
def calculateCraterDiameter (energy _velocity angle : ℝ) (isOcean : Bool) : ℝ :=
  let angleRadians := angle * Real.pi / 180
  let angleEfficiency := Real.sin angleRadians ^ (0.3 : ℝ)
  let terrainFactor : ℝ := if isOcean then 0.7 else 1.0
  let scalingConstant : ℝ := 0.8
  let diameterKm := scalingConstant * energy ^ (0.33 : ℝ) * angleEfficiency * terrainFactor
  max 0.1 diameterKm

/-- calculateCraterDepth from the source. -/
def calculateCraterDepth (diameter : ℝ) : ℝ :=
  diameter / 4

/-- calculateShockwaveRadius from the source. -/
def calculateShockwaveRadius (energy : ℝ) : ℝ :=
  energy ^ (0.33 : ℝ) * 2.5

/-- calculateThermalRadius from the source. -/
def calculateThermalRadius (energy : ℝ) : ℝ :=
  energy ^ (0.41 : ℝ) * 3.2

/-- calculateSeismicMagnitude from the source: reconstructs a joules value
as energy * 1e6 * TNT_ENERGY and applies the logarithmic magnitude formula. -/
def calculateSeismicMagnitude (energy : ℝ) : ℝ :=
  let energyJoules := energy * 1e6 * TNT_ENERGY
  (2 / 3) * Real.logb 10 energyJoules - 2.9

/-- isOceanImpact from the source.  The three bounding-box branches return
true without touching the random source; only the final fallback reads one
random value, so the cursor advances only there. -/
def isOceanImpact (lat lon : ℝ) (rs : ℕ → ℝ) (k : ℕ) : Bool × ℕ :=
  if (lon > 120 ∨ lon < -70) ∧ |lat| < 60 then (true, k)
  else if lon > -70 ∧ lon < -10 ∧ |lat| < 60 then (true, k)
  else if lon > 40 ∧ lon < 120 ∧ lat < 20 ∧ lat > -50 then (true, k)
  else (if rs k < EARTH_OCEAN_COVERAGE then true else false, k + 1)

/-- The deterministic part of the ocean classification: whether any of the
three bounding boxes of isOceanImpact matches the coordinates. -/
def oceanBoxMatch (lat lon : ℝ) : Bool :=
  if (lon > 120 ∨ lon < -70) ∧ |lat| < 60 then true
  else if lon > -70 ∧ lon < -10 ∧ |lat| < 60 then true
  else if lon > 40 ∧ lon < 120 ∧ lat < 20 ∧ lat > -50 then true
  else false

/-- calculateTsunamiHeight from the source.  The waterDepth parameter has
default value 4000 in the source; here it is passed explicitly. -/
def calculateTsunamiHeight (energy craterDiameter waterDepth : ℝ) : ℝ :=
  let energyFactor := energy ^ (0.25 : ℝ)
  let craterFactor := craterDiameter * 1000
  let initialHeight := min (craterFactor / 10) (waterDepth * 0.5)
  initialHeight * energyFactor * 0.1

/-- getPopulationDensity from the source.  The initial default of 50 in the
source is dead (the latitude chain covers every case), so the chain is
modelled directly.  Reads exactly one random value for the variation. -/
def getPopulationDensity (lat lon : ℝ) (rs : ℕ → ℝ) (k : ℕ) : ℝ × ℕ :=
  let absLat := |lat|
  let latDensity : ℝ :=
    if absLat < 30 then 200
    else if absLat < 50 then 150
    else if absLat < 70 then 20
    else 1
  let baseDensity : ℝ :=
    if lon > -180 ∧ lon < -50 then latDensity * 0.8
    else if lon > -50 ∧ lon < 50 then latDensity * 1.2
    else if lon > 50 ∧ lon < 150 then latDensity * 1.5
    else latDensity * 0.3
  let variation := 0.5 + rs k
  (max 1 (baseDensity * variation), k + 1)

/-- estimateAffectedPopulation from the source: density times the circular
area of the larger damage radius, rounded to the nearest integer. -/
def estimateAffectedPopulation (lat lon shockwaveRadius thermalRadius : ℝ)
    (rs : ℕ → ℝ) (k : ℕ) : ℤ × ℕ :=
  let d := getPopulationDensity lat lon rs k
  let affectedArea := Real.pi * max shockwaveRadius thermalRadius ^ 2
  (round (d.1 * affectedArea), d.2)

/-- calculateImpact from the source, threaded with the random stream: the
result record together with the final cursor. -/
def calculateImpactAux (data : AsteroidData) (rs : ℕ → ℝ) : ImpactResults × ℕ :=
  let mass := calculateMass data.diameter
  let energy := calculateEnergy mass data.velocity
  let ocean := isOceanImpact data.impactLat data.impactLon rs 0
  let isOcean := ocean.1
  let craterDiameter := calculateCraterDiameter energy data.velocity data.angle isOcean
  let craterDepth := calculateCraterDepth craterDiameter
  let shockwaveRadius := calculateShockwaveRadius energy
  let thermalRadius := calculateThermalRadius energy
  let seismicMagnitude := calculateSeismicMagnitude energy
  let pop := estimateAffectedPopulation data.impactLat data.impactLon
    shockwaveRadius thermalRadius rs ocean.2
  (⟨mass, energy, craterDiameter, craterDepth, shockwaveRadius, seismicMagnitude,
    thermalRadius, isOcean,
    if isOcean then some (calculateTsunamiHeight energy craterDiameter 4000) else none,
    pop.1⟩, pop.2)

/-- The result record of a calculateImpact run. -/
def calculateImpact (data : AsteroidData) (rs : ℕ → ℝ) : ImpactResults :=
  (calculateImpactAux data rs).1

/-- The number of random values a calculateImpact run consumes. -/
def calculateImpactDraws (data : AsteroidData) (rs : ℕ → ℝ) : ℕ :=
  (calculateImpactAux data rs).2

/-! ### Helper lemmas -/

lemma calculateImpactDraws_eq (d : AsteroidData) (rs : ℕ → ℝ) :
    calculateImpactDraws d rs = (isOceanImpact d.impactLat d.impactLon rs 0).2 + 1 := rfl

lemma isOceanImpact_snd (lat lon : ℝ) (rs : ℕ → ℝ) (k : ℕ) :
    (isOceanImpact lat lon rs k).2 = if oceanBoxMatch lat lon then k else k + 1 := by
  unfold isOceanImpact oceanBoxMatch
  split_ifs <;> simp_all

lemma calculateMass_zero : calculateMass 0 = 0 := by
  simp [calculateMass]

lemma calculateEnergy_mass_zero (v : ℝ) : calculateEnergy 0 v = 0 := by
  simp [calculateEnergy]

lemma calculateCraterDiameter_zero (v a : ℝ) (o : Bool) :
    calculateCraterDiameter 0 v a o = 0.1 := by
  simp only [calculateCraterDiameter]
  rw [Real.zero_rpow (by norm_num), mul_zero, zero_mul, zero_mul]
  exact max_eq_left (by norm_num)

lemma impact_diameter_zero (v a lat lon : ℝ) (rs : ℕ → ℝ) :
    (calculateImpact ⟨0, v, a, lat, lon⟩ rs).energy = 0 ∧
    (calculateImpact ⟨0, v, a, lat, lon⟩ rs).craterDiameter = 0.1 := by
  have he : (calculateImpact ⟨0, v, a, lat, lon⟩ rs).energy
      = calculateEnergy (calculateMass 0) v := rfl
  have hc : (calculateImpact ⟨0, v, a, lat, lon⟩ rs).craterDiameter
      = calculateCraterDiameter (calculateEnergy (calculateMass 0) v) v a
        (isOceanImpact lat lon rs 0).1 := rfl
  rw [he, hc, calculateMass_zero, calculateEnergy_mass_zero]
  exact ⟨rfl, calculateCraterDiameter_zero _ _ _⟩

/-! ### Claims -/

/-- C7: in every result record produced by calculateImpact, for every input
and every random stream, craterDepth equals craterDiameter divided by 4. -/
theorem C7_craterDepth_quarter (d : AsteroidData) (rs : ℕ → ℝ) :
    (calculateImpact d rs).craterDepth = (calculateImpact d rs).craterDiameter / 4 := rfl

/-- C9: calculateCraterDiameter does not depend on its velocity argument. -/
theorem C9_velocity_independent (E v1 v2 a : ℝ) (o : Bool) :
    calculateCraterDiameter E v1 a o = calculateCraterDiameter E v2 a o := rfl

/-- C8: in every result record produced by calculateImpact, the tsunamiHeight
field is present exactly when the isOceanImpact field of the record is true. -/
theorem C8_tsunami_iff_ocean (d : AsteroidData) (rs : ℕ → ℝ) :
    (calculateImpact d rs).tsunamiHeight.isSome = (calculateImpact d rs).isOceanImpact := by
  have h1 : (calculateImpact d rs).isOceanImpact
      = (isOceanImpact d.impactLat d.impactLon rs 0).1 := rfl
  have h2 : (calculateImpact d rs).tsunamiHeight =
      if (isOceanImpact d.impactLat d.impactLon rs 0).1 then
        some (calculateTsunamiHeight (calculateEnergy (calculateMass d.diameter) d.velocity)
          (calculateCraterDiameter (calculateEnergy (calculateMass d.diameter) d.velocity)
            d.velocity d.angle (isOceanImpact d.impactLat d.impactLon rs 0).1) 4000)
      else none := rfl
  rw [h1, h2]
  cases (isOceanImpact d.impactLat d.impactLon rs 0).1 <;> simp

/-- C6: for energy at least 0 and angle in the interval from 0 exclusive to 90
inclusive, calculateCraterDiameter equals the floored scaling formula with
terrain factor 0.7 for ocean and 1.0 for land, and is always at least 0.1 km. -/
theorem C6_crater_formula (E v a : ℝ) (o : Bool)
    (hE : 0 ≤ E) (ha0 : 0 < a) (ha90 : a ≤ 90) :
    calculateCraterDiameter E v a o =
      max 0.1 (0.8 * E ^ (0.33 : ℝ) * Real.sin (a * Real.pi / 180) ^ (0.3 : ℝ) *
        (if o then 0.7 else 1.0)) ∧
    0.1 ≤ calculateCraterDiameter E v a o :=
  ⟨rfl, le_max_left _ _⟩

/-- C6 witness: the crater formula evaluated at energy 0, velocity 5,
angle 90 degrees, land impact. -/
theorem C6_crater_formula_witness :
    (0:ℝ) ≤ 0 ∧ (0:ℝ) < 90 ∧ (90:ℝ) ≤ 90 ∧
    (calculateCraterDiameter 0 5 90 false =
      max 0.1 (0.8 * (0:ℝ) ^ (0.33 : ℝ) * Real.sin (90 * Real.pi / 180) ^ (0.3 : ℝ) *
        (if false then 0.7 else 1.0)) ∧
    0.1 ≤ calculateCraterDiameter 0 5 90 false) :=
  ⟨le_refl 0, by norm_num, le_refl 90,
   C6_crater_formula 0 5 90 false (le_refl 0) (by norm_num) (le_refl 90)⟩

/-- C10: at any latitude of absolute value at least 60 no ocean bounding box
matches, so isOceanImpact is decided by the random fallback draw: ocean
exactly when the drawn value is below 0.71, and one value is consumed. -/
theorem C10_high_latitude_fallback (lat lon : ℝ) (rs : ℕ → ℝ) (h : 60 ≤ |lat|) :
    isOceanImpact lat lon rs 0 = (if rs 0 < 0.71 then true else false, 1) := by
  have h60 : ¬ |lat| < 60 := not_lt.mpr h
  have h3 : ¬(lon > 40 ∧ lon < 120 ∧ lat < 20 ∧ lat > -50) := by
    rintro ⟨-, -, h1, h2⟩
    exact h60 (abs_lt.mpr ⟨by linarith, by linarith⟩)
  unfold isOceanImpact
  rw [if_neg (fun hc => h60 hc.2), if_neg (fun hc => h60 hc.2.2), if_neg h3]
  rfl

/-- C10 witness: the Tunguska coordinates, latitude 60.9 and longitude 101.9,
fall to the random draw even though they are far inland. -/
theorem C10_high_latitude_fallback_witness : (60:ℝ) ≤ |(60.9:ℝ)| ∧
    isOceanImpact 60.9 101.9 (fun _ => 0) 0 = (if (0:ℝ) < 0.71 then true else false, 1) := by
  have h : (60:ℝ) ≤ |(60.9:ℝ)| := by rw [abs_of_nonneg] <;> norm_num
  exact ⟨h, C10_high_latitude_fallback 60.9 101.9 (fun _ => 0) h⟩

/-- C5 counterexample: for the valid input diameter 500, velocity 20,
angle 45 at latitude 0 longitude 150 (inside the Pacific bounding box),
calculateImpact consumes one random value, not two. -/
theorem C5_counterexample :
    (0:ℝ) < 500 ∧ (0:ℝ) < 20 ∧ (0:ℝ) < 45 ∧ (45:ℝ) ≤ 90 ∧
    calculateImpactDraws ⟨500, 20, 45, 0, 150⟩ (fun _ => 0) ≠ 2 := by
  refine ⟨by norm_num, by norm_num, by norm_num, by norm_num, ?_⟩
  have hb : oceanBoxMatch (0:ℝ) (150:ℝ) = true := by
    unfold oceanBoxMatch
    rw [if_pos ⟨Or.inl (by norm_num), by rw [abs_zero]; norm_num⟩]
  have h1 : calculateImpactDraws ⟨500, 20, 45, 0, 150⟩ (fun _ => 0)
      = (isOceanImpact 0 150 (fun _ => 0) 0).2 + 1 := rfl
  rw [h1, isOceanImpact_snd, hb]
  norm_num

/-- C5 amended: calculateImpact consumes exactly one random value when an
ocean bounding box matches the impact coordinates (only the population
variation draw happens) and exactly two otherwise (ocean fallback draw plus
population variation draw). -/
theorem C5_amended_draw_count (d : AsteroidData) (rs : ℕ → ℝ) :
    calculateImpactDraws d rs
      = if oceanBoxMatch d.impactLat d.impactLon then 1 else 2 := by
  rw [calculateImpactDraws_eq, isOceanImpact_snd]
  split_ifs <;> rfl

/-- C2 counterexample: with diameter 0 (and otherwise valid parameters)
calculateImpact produces a fully computed result record rather than an
invalid-input error: the record exists, with energy 0 and the floored
crater diameter 0.1. -/
theorem C2_counterexample :
    (calculateImpact ⟨0, 20, 45, 21.3, -89.5⟩ (fun _ => 0)).craterDiameter = 0.1 ∧
    (calculateImpact ⟨0, 20, 45, 21.3, -89.5⟩ (fun _ => 0)).energy = 0 :=
  ⟨(impact_diameter_zero 20 45 21.3 (-89.5) (fun _ => 0)).2,
   (impact_diameter_zero 20 45 21.3 (-89.5) (fun _ => 0)).1⟩

/-- C2 amended: calculateImpact performs no input validation and raises no
error: every input, in particular diameter 0, flows through the pipeline and
yields a fully computed result record, with energy 0 and crater diameter
floored at 0.1. -/
theorem C2_amended_no_validation (v a lat lon : ℝ) (rs : ℕ → ℝ) :
    (calculateImpact ⟨0, v, a, lat, lon⟩ rs).energy = 0 ∧
    (calculateImpact ⟨0, v, a, lat, lon⟩ rs).craterDiameter = 0.1 :=
  impact_diameter_zero v a lat lon rs

/-- C1: at mass 2 kg and velocity 1 km/s the kinetic energy is 1e6 joules,
but the megaton value calculateEnergy returns, multiplied by the
4.184e15 joules-per-megaton constant of the claim, is 1e9 joules: the code
divides by 4.184e12, a factor 1000 away from the true megaton constant. -/
theorem C1_constant_mismatch :
    calculateEnergy 2 1 * 4.184e15 = 1e9 ∧
    (0.5 * 2 * ((1:ℝ) * 1000) ^ 2 = 1e6) ∧ ((1e9:ℝ) ≠ 1e6) := by
  refine ⟨?_, by norm_num, by norm_num⟩
  simp only [calculateEnergy, TNT_ENERGY]
  norm_num

/-- C3: at mass 2 kg and velocity 1 km/s the kinetic energy is 1e6 joules,
but the joules value calculateSeismicMagnitude reconstructs from the energy
stage, energy times 1e6 times TNT_ENERGY, is 1e12 joules: the megaton to
joule conversion does not round-trip, it is off by a factor 1e6. -/
theorem C3_roundtrip_fails :
    calculateEnergy 2 1 * 1e6 * TNT_ENERGY = 1e12 ∧
    (0.5 * 2 * ((1:ℝ) * 1000) ^ 2 = 1e6) ∧ ((1e12:ℝ) ≠ 1e6) := by
  refine ⟨?_, by norm_num, by norm_num⟩
  simp only [calculateEnergy, TNT_ENERGY]
  norm_num

/-- C4: for the Chicxulub scenario, diameter 10000 m and velocity 20 km/s,
the pipeline energy exceeds 1e9 megatons (it is about 5e10), far above the
1e7 to 1e9 megaton range the claim states. -/
theorem C4_energy_above_claimed_range :
    1e9 < calculateEnergy (calculateMass 10000) 20 ∧
    calculateEnergy (calculateMass 10000) 20 < 1e11 := by
  have hpi3 := Real.pi_gt_three
  have hpi4 := Real.pi_lt_d2
  constructor
  · simp only [calculateEnergy, calculateMass, TNT_ENERGY, ASTEROID_DENSITY]
    rw [lt_div_iff₀ (by norm_num)]
    nlinarith
  · simp only [calculateEnergy, calculateMass, TNT_ENERGY, ASTEROID_DENSITY]
    rw [div_lt_iff₀ (by norm_num)]
    nlinarith
